import Mathlib

/-!
Verification of the RBAC core of the quality_flask repository.

The data model is a shallow embedding of the drizzle schema in
`src/shared/schema.ts` (tables `app_modules`, `permissions`, `roles`,
`role_permissions`, `user_roles`).  UUID columns are modelled as natural
numbers; only the columns the authorization core reads are kept.  The
authorization engine and the administrative operations are declared by the
spec but their code is not under `src/`; they are modelled from the spec
(each such definition says so in its doc comment) and the claims about
them are settled against those models.
-/

namespace RBAC

/-- A row of `app_modules` (src/shared/schema.ts, lines 107-114). -/
structure AppModule where
  id : Nat
  moduleName : String
  moduleKey : String
  isActive : Bool
  deriving Repr, DecidableEq

/-- A row of `permissions` (src/shared/schema.ts, lines 116-124). -/
structure Permission where
  id : Nat
  permissionName : String
  permissionKey : String
  moduleId : Nat
  isActive : Bool
  deriving Repr, DecidableEq

/-- A row of `roles` (src/shared/schema.ts, lines 126-135). -/
structure Role where
  id : Nat
  roleName : String
  roleKey : String
  isSystemRole : Bool
  isActive : Bool
  deriving Repr, DecidableEq

/-- A row of `role_permissions` (src/shared/schema.ts, lines 137-143): a
RoleGrant edge between a role and a permission. -/
structure RoleGrant where
  roleId : Nat
  permissionId : Nat
  granted : Bool
  deriving Repr, DecidableEq

/-- A row of `user_roles` (src/shared/schema.ts, lines 145-152): a
UserRoleAssignment edge between a principal and a role. -/
structure UserRoleAssignment where
  userId : Nat
  roleId : Nat
  assignedBy : Option Nat
  deriving Repr, DecidableEq

/-- The RBAC portion of the database state. -/
structure RBACState where
  modules : List AppModule
  permissions : List Permission
  roles : List Role
  rolePermissions : List RoleGrant
  userRoles : List UserRoleAssignment
  deriving Repr, DecidableEq

/-- Builds a `role_permissions` row from an insert payload.  The `granted`
column carries the schema default `true` (src/shared/schema.ts, line 141:
`granted: boolean("granted").default(true)`), applied when the insert omits
the field. -/
def mkRoleGrant (roleId permissionId : Nat) (granted : Option Bool) : RoleGrant :=
  { roleId := roleId, permissionId := permissionId, granted := granted.getD true }

/-- Inserts a `role_permissions` row, applying the schema default for the
`granted` column when the payload omits it. -/
def insertRolePermission (s : RBACState) (roleId permissionId : Nat)
    (granted : Option Bool) : RBACState :=
  { s with rolePermissions := s.rolePermissions ++ [mkRoleGrant roleId permissionId granted] }

/-- Errors of the administrative operations (spec section 7). -/
inductive RBACError where
  | DuplicateKey
  | UnknownModule
  | UnknownPermission
  | UnknownRole
  | ProtectedRole
  deriving Repr, DecidableEq

/-- Modelled from the spec: `listRoles(principalId)` of section 4.4 (the
operation is not under `src/`; only the `user_roles` table it reads is).
Returns the role ids of the principal's assignment edges. -/
def listRoles (s : RBACState) (principalId : Nat) : List Nat :=
  (s.userRoles.filter (fun ur => ur.userId == principalId)).map (fun ur => ur.roleId)

/-- Modelled from the spec: membership in the accumulated `Granted` set of
section 4.5 step 2 — some `role_permissions` edge from a held role has
`granted = true` for the permission. -/
def grantedBy (s : RBACState) (roleIds : List Nat) (permissionId : Nat) : Bool :=
  s.rolePermissions.any (fun e =>
    roleIds.contains e.roleId && e.permissionId == permissionId && e.granted)

/-- Modelled from the spec: membership in the accumulated `Denied` set of
section 4.5 step 2 — some `role_permissions` edge from a held role has
`granted = false` for the permission. -/
def deniedBy (s : RBACState) (roleIds : List Nat) (permissionId : Nat) : Bool :=
  s.rolePermissions.any (fun e =>
    roleIds.contains e.roleId && e.permissionId == permissionId && !e.granted)

/-- Modelled from the spec: effective-permitted(p) = (p in Granted) AND
(p not in Denied), section 4.5 step 3. -/
def effectivePermitted (s : RBACState) (roleIds : List Nat) (permissionId : Nat) : Bool :=
  grantedBy s roleIds permissionId && !deniedBy s roleIds permissionId

/-- Modelled from the spec: `isPermitted(principalId, permissionKey)` of
section 4.5 step 4 (the authorization engine is not under `src/`).  Resolves
the key in the `permissions` table and evaluates effective-permitted over
the principal's role set; an unknown key, an unknown principal or a
role-less principal yields the ordinary boolean `false`. -/
def isPermitted (s : RBACState) (principalId : Nat) (permissionKey : String) : Bool :=
  match s.permissions.find? (fun pm => pm.permissionKey == permissionKey) with
  | none => false
  | some pm => effectivePermitted s (listRoles s principalId) pm.id

/-- Existence of a `roles` row with the given id. -/
def roleExists (s : RBACState) (roleId : Nat) : Bool :=
  s.roles.any (fun r => r.id == roleId)

/-- Existence of a `permissions` row with the given id. -/
def permissionExists (s : RBACState) (permissionId : Nat) : Bool :=
  s.permissions.any (fun pm => pm.id == permissionId)

/-- Sets the `granted` flag of the edge for the given (role, permission)
pair, leaving every other edge unchanged. -/
def setGranted (roleId permissionId : Nat) (v : Bool) (e : RoleGrant) : RoleGrant :=
  if e.roleId == roleId && e.permissionId == permissionId then { e with granted := v } else e

/-- Whether a `role_permissions` edge is the one for the given pair. -/
def matchesPair (roleId permissionId : Nat) (e : RoleGrant) : Bool :=
  e.roleId == roleId && e.permissionId == permissionId

/-- Modelled from the spec: `grant(roleId, permissionId)` of section 4.3
(the operation is not under `src/`): creates or updates the pair's edge
with `granted = true`; fails with UnknownRole / UnknownPermission. -/
def grant (s : RBACState) (roleId permissionId : Nat) : Except RBACError RBACState :=
  if !roleExists s roleId then .error .UnknownRole
  else if !permissionExists s permissionId then .error .UnknownPermission
  else if s.rolePermissions.any (matchesPair roleId permissionId) then
    .ok { s with rolePermissions := s.rolePermissions.map (setGranted roleId permissionId true) }
  else
    .ok (insertRolePermission s roleId permissionId (some true))

/-- Modelled from the spec: `deny(roleId, permissionId)` of section 4.3
(the operation is not under `src/`): creates or updates the pair's edge
with `granted = false`; fails with UnknownRole / UnknownPermission. -/
def deny (s : RBACState) (roleId permissionId : Nat) : Except RBACError RBACState :=
  if !roleExists s roleId then .error .UnknownRole
  else if !permissionExists s permissionId then .error .UnknownPermission
  else if s.rolePermissions.any (matchesPair roleId permissionId) then
    .ok { s with rolePermissions := s.rolePermissions.map (setGranted roleId permissionId false) }
  else
    .ok (insertRolePermission s roleId permissionId (some false))

/-- Modelled from the spec: `revoke(roleId, permissionId)` of section 4.3
(the operation is not under `src/`): removes the pair's edge entirely,
reverting the pair to no-opinion; fails with UnknownRole /
UnknownPermission. -/
def revoke (s : RBACState) (roleId permissionId : Nat) : Except RBACError RBACState :=
  if !roleExists s roleId then .error .UnknownRole
  else if !permissionExists s permissionId then .error .UnknownPermission
  else .ok { s with rolePermissions :=
    s.rolePermissions.filter (fun e => !matchesPair roleId permissionId e) }

/-- Modelled from the spec: `assignRole(principalId, roleId, assignedBy)` of
section 4.4 (the operation is not under `src/`): creates the edge if absent,
idempotent no-op if present; fails with UnknownRole. -/
def assignRole (s : RBACState) (principalId roleId : Nat) (assignedBy : Option Nat) :
    Except RBACError RBACState :=
  if !roleExists s roleId then .error .UnknownRole
  else if s.userRoles.any (fun ur => ur.userId == principalId && ur.roleId == roleId) then
    .ok s
  else
    .ok { s with userRoles := s.userRoles ++
      [{ userId := principalId, roleId := roleId, assignedBy := assignedBy }] }

/-- Modelled from the spec: `unassignRole(principalId, roleId)` of section
4.4 (the operation is not under `src/`): removes the edge if present, else
no-op. -/
def unassignRole (s : RBACState) (principalId roleId : Nat) : RBACState :=
  { s with userRoles := s.userRoles.filter (fun ur =>
    !(ur.userId == principalId && ur.roleId == roleId)) }

/-- Modelled from the spec: `deleteRole(roleId)` of section 4.2 (the
operation is not under `src/`): fails with ProtectedRole if the role's
`isSystemRole` is true; otherwise removes the role and cascades removal of
the `role_permissions` and `user_roles` edges referencing it (the cascade
mirrors `onDelete: "cascade"` on both tables, src/shared/schema.ts lines
139 and 148). -/
def deleteRole (s : RBACState) (roleId : Nat) : Except RBACError RBACState :=
  match s.roles.find? (fun r => r.id == roleId) with
  | none => .error .UnknownRole
  | some r =>
    if r.isSystemRole then .error .ProtectedRole
    else .ok { s with
      roles := s.roles.filter (fun ro => !(ro.id == roleId)),
      rolePermissions := s.rolePermissions.filter (fun e => !(e.roleId == roleId)),
      userRoles := s.userRoles.filter (fun ur => !(ur.roleId == roleId)) }

/-- A permission id not used by any `permissions` row of the state. -/
def freshPermissionId (s : RBACState) : Nat :=
  s.permissions.foldr (fun pm acc => max acc (pm.id + 1)) 0

/-- Modelled from the spec: `registerPermission(key, displayName, moduleId)`
of section 4.1 (the operation is not under `src/`): fails with UnknownModule
if the module does not exist, with DuplicateKey if the key exists; otherwise
stores a new `permissions` row referencing the module. -/
def registerPermission (s : RBACState) (key displayName : String) (moduleId : Nat) :
    Except RBACError (Nat × RBACState) :=
  if !(s.modules.any (fun m => m.id == moduleId)) then .error .UnknownModule
  else if s.permissions.any (fun pm => pm.permissionKey == key) then .error .DuplicateKey
  else
    .ok (freshPermissionId s, { s with permissions := s.permissions ++
      [{ id := freshPermissionId s, permissionName := displayName, permissionKey := key,
         moduleId := moduleId, isActive := true }] })

/-- At most one `role_permissions` edge per (role, permission) pair
(spec section 3, RoleGrant invariant). -/
def atMostOneEdge (l : List RoleGrant) : Prop :=
  l.Pairwise (fun a b => ¬(a.roleId = b.roleId ∧ a.permissionId = b.permissionId))

/-- Every `permissions` row references an existing `app_modules` row
(spec section 3, Permission invariant). -/
def permissionModulesValid (s : RBACState) : Prop :=
  ∀ pm ∈ s.permissions, ∃ m ∈ s.modules, m.id = pm.moduleId

/-- A sample database state used to evaluate the theorems on concrete
inputs: one module, one permission, two ordinary roles and a system role,
a grant edge and a deny edge for the same permission, and one principal
holding both ordinary roles. -/
def demoState : RBACState :=
  { modules := [⟨1, "Quality", "quality", true⟩]
  , permissions := [⟨10, "Create test", "quality.test.create", 1, true⟩]
  , roles := [⟨20, "Quality technician", "quality_technician", false, true⟩,
              ⟨21, "Operator", "operator", false, true⟩,
              ⟨22, "Admin", "admin", true, true⟩]
  , rolePermissions := [⟨20, 10, true⟩, ⟨21, 10, false⟩]
  , userRoles := [⟨100, 20, none⟩, ⟨100, 21, none⟩]
  }

theorem grantedBy_nil (s : RBACState) (pid : Nat) : grantedBy s [] pid = false := by
  simp [grantedBy]

theorem isPermitted_of_no_roles (s : RBACState) (p : Nat) (k : String)
    (h : listRoles s p = []) : isPermitted s p k = false := by
  unfold isPermitted
  cases hf : s.permissions.find? (fun pm => pm.permissionKey == k) with
  | none => rfl
  | some pm => simp [effectivePermitted, h, grantedBy_nil]

theorem matchesPair_eq (r p : Nat) (e : RoleGrant) :
    matchesPair r p e = true ↔ e.roleId = r ∧ e.permissionId = p := by
  simp [matchesPair]

theorem setGranted_roleId (r p : Nat) (v : Bool) (e : RoleGrant) :
    (setGranted r p v e).roleId = e.roleId := by
  unfold setGranted; split <;> rfl

theorem setGranted_permissionId (r p : Nat) (v : Bool) (e : RoleGrant) :
    (setGranted r p v e).permissionId = e.permissionId := by
  unfold setGranted; split <;> rfl

theorem map_setGranted_id (l : List RoleGrant) (r p : Nat) (v : Bool)
    (h : ∀ e ∈ l, e.roleId = r → e.permissionId = p → e.granted = v) :
    l.map (setGranted r p v) = l := by
  have hid : ∀ e ∈ l, setGranted r p v e = id e := by
    intro e he
    unfold setGranted
    by_cases hc : e.roleId == r && e.permissionId == p
    · simp only [hc, if_pos]
      have h1 : e.roleId = r := by
        have := hc; simp at this; exact this.1
      have h2 : e.permissionId = p := by
        have := hc; simp at this; exact this.2
      have h3 := h e he h1 h2
      cases e with
      | mk a b c => simp_all
    · simp [hc]
  rw [List.map_congr_left hid, List.map_id]

theorem map_setGranted_matching (l : List RoleGrant) (r p : Nat) (v : Bool) (x : RoleGrant)
    (hx : x ∈ l.map (setGranted r p v)) (hr : x.roleId = r) (hp : x.permissionId = p) :
    x.granted = v := by
  rcases List.mem_map.mp hx with ⟨e, he, rfl⟩
  by_cases hc : (e.roleId == r && e.permissionId == p) = true
  · simp [setGranted, hc]
  · exfalso
    have hee : setGranted r p v e = e := by simp [setGranted, hc]
    rw [hee] at hr hp
    simp [hr, hp] at hc

theorem setGranted_mem_map (l : List RoleGrant) (r p : Nat) (v : Bool) (e : RoleGrant)
    (he : e ∈ l) (hr : e.roleId = r) (hp : e.permissionId = p) :
    ∃ x ∈ l.map (setGranted r p v), x.roleId = r ∧ x.permissionId = p ∧ x.granted = v := by
  refine ⟨setGranted r p v e, List.mem_map_of_mem _ he, ?_⟩
  simp [setGranted, hr, hp]

theorem matchesPair_setGranted (r p : Nat) (v : Bool) (e : RoleGrant) :
    matchesPair r p (setGranted r p v e) = matchesPair r p e := by
  by_cases hc : (e.roleId == r && e.permissionId == p) = true
  · simp [setGranted, matchesPair, hc]
  · simp [setGranted, hc]

theorem countP_map_setGranted (l : List RoleGrant) (r p : Nat) (v : Bool) :
    (l.map (setGranted r p v)).countP (matchesPair r p) = l.countP (matchesPair r p) := by
  induction l with
  | nil => rfl
  | cons e t ih =>
    simp only [List.map_cons, List.countP_cons, ih, matchesPair_setGranted]

theorem pairwise_map_setGranted (l : List RoleGrant) (r p : Nat) (v : Bool)
    (h : atMostOneEdge l) : atMostOneEdge (l.map (setGranted r p v)) := by
  unfold atMostOneEdge at *
  rw [List.pairwise_map]
  refine h.imp ?_
  intro a b hab
  simpa [setGranted_roleId, setGranted_permissionId] using hab

theorem countP_le_one_of_pairwise (l : List RoleGrant) (r p : Nat)
    (h : atMostOneEdge l) : l.countP (matchesPair r p) ≤ 1 := by
  induction h with
  | nil => simp
  | @cons a t ha ht ih =>
    rw [List.countP_cons]
    by_cases hm : matchesPair r p a = true
    · have hz : t.countP (matchesPair r p) = 0 := by
        rw [List.countP_eq_zero]
        intro b hb hmb
        rcases (matchesPair_eq r p a).mp hm with ⟨h1, h2⟩
        rcases (matchesPair_eq r p b).mp hmb with ⟨h3, h4⟩
        exact ha b hb ⟨h1.trans h3.symm, h2.trans h4.symm⟩
      simp [hz, hm]
    · simp only [Bool.not_eq_true] at hm
      simp [hm, ih]

theorem grant_ok_cases (s : RBACState) (r p : Nat) (s1 : RBACState)
    (h : grant s r p = .ok s1) :
    roleExists s r = true ∧ permissionExists s p = true ∧
    s1.modules = s.modules ∧ s1.permissions = s.permissions ∧ s1.roles = s.roles ∧
    s1.userRoles = s.userRoles ∧
    ((s.rolePermissions.any (matchesPair r p) = true ∧
      s1.rolePermissions = s.rolePermissions.map (setGranted r p true))
     ∨ (s.rolePermissions.any (matchesPair r p) = false ∧
        s1.rolePermissions = s.rolePermissions ++ [⟨r, p, true⟩])) := by
  unfold grant at h
  by_cases h1 : roleExists s r
  · by_cases h2 : permissionExists s p
    · by_cases h3 : s.rolePermissions.any (matchesPair r p)
      · simp only [h1, h2, h3, Bool.not_true, Bool.false_eq_true, if_false, if_true,
          Except.ok.injEq] at h
        subst h
        exact ⟨h1, h2, rfl, rfl, rfl, rfl, Or.inl ⟨h3, rfl⟩⟩
      · simp only [h1, h2, Bool.not_true, Bool.false_eq_true, if_false,
          Bool.not_eq_true] at h
        rw [if_neg (by simp [h3]), Except.ok.injEq] at h
        subst h
        refine ⟨h1, h2, rfl, rfl, rfl, rfl, Or.inr ⟨by simpa using h3, rfl⟩⟩
    · simp [h1, h2] at h
  · simp [h1] at h

theorem deny_ok_cases (s : RBACState) (r p : Nat) (s1 : RBACState)
    (h : deny s r p = .ok s1) :
    roleExists s r = true ∧ permissionExists s p = true ∧
    s1.modules = s.modules ∧ s1.permissions = s.permissions ∧ s1.roles = s.roles ∧
    s1.userRoles = s.userRoles ∧
    ((s.rolePermissions.any (matchesPair r p) = true ∧
      s1.rolePermissions = s.rolePermissions.map (setGranted r p false))
     ∨ (s.rolePermissions.any (matchesPair r p) = false ∧
        s1.rolePermissions = s.rolePermissions ++ [⟨r, p, false⟩])) := by
  unfold deny at h
  by_cases h1 : roleExists s r
  · by_cases h2 : permissionExists s p
    · by_cases h3 : s.rolePermissions.any (matchesPair r p)
      · simp only [h1, h2, h3, Bool.not_true, Bool.false_eq_true, if_false, if_true,
          Except.ok.injEq] at h
        subst h
        exact ⟨h1, h2, rfl, rfl, rfl, rfl, Or.inl ⟨h3, rfl⟩⟩
      · simp only [h1, h2, Bool.not_true, Bool.false_eq_true, if_false,
          Bool.not_eq_true] at h
        rw [if_neg (by simp [h3]), Except.ok.injEq] at h
        subst h
        refine ⟨h1, h2, rfl, rfl, rfl, rfl, Or.inr ⟨by simpa using h3, rfl⟩⟩
    · simp [h1, h2] at h
  · simp [h1] at h

theorem revoke_ok_cases (s : RBACState) (r p : Nat) (s1 : RBACState)
    (h : revoke s r p = .ok s1) :
    roleExists s r = true ∧ permissionExists s p = true ∧
    s1.modules = s.modules ∧ s1.permissions = s.permissions ∧ s1.roles = s.roles ∧
    s1.userRoles = s.userRoles ∧
    s1.rolePermissions = s.rolePermissions.filter (fun e => !matchesPair r p e) := by
  unfold revoke at h
  by_cases h1 : roleExists s r
  · by_cases h2 : permissionExists s p
    · simp only [h1, h2, Bool.not_true, Bool.false_eq_true, if_false,
        Except.ok.injEq] at h
      subst h
      exact ⟨h1, h2, rfl, rfl, rfl, rfl, rfl⟩
    · simp [h1, h2] at h
  · simp [h1] at h

theorem assignRole_ok_cases (s : RBACState) (u r : Nat) (b : Option Nat) (s1 : RBACState)
    (h : assignRole s u r b = .ok s1) :
    roleExists s r = true ∧
    s1.modules = s.modules ∧ s1.permissions = s.permissions ∧ s1.roles = s.roles ∧
    s1.rolePermissions = s.rolePermissions ∧
    ((s.userRoles.any (fun ur => ur.userId == u && ur.roleId == r) = true ∧ s1 = s)
     ∨ (s.userRoles.any (fun ur => ur.userId == u && ur.roleId == r) = false ∧
        s1.userRoles = s.userRoles ++ [⟨u, r, b⟩])) := by
  unfold assignRole at h
  by_cases h1 : roleExists s r
  · by_cases h2 : s.userRoles.any (fun ur => ur.userId == u && ur.roleId == r)
    · simp only [h1, h2, Bool.not_true, Bool.false_eq_true, if_false, if_true,
        Except.ok.injEq] at h
      subst h
      exact ⟨h1, rfl, rfl, rfl, rfl, Or.inl ⟨h2, rfl⟩⟩
    · simp only [h1, Bool.not_true, Bool.false_eq_true, if_false] at h
      rw [if_neg (by simp [h2]), Except.ok.injEq] at h
      subst h
      refine ⟨h1, rfl, rfl, rfl, rfl, Or.inr ⟨by simpa using h2, rfl⟩⟩
  · simp [h1] at h

theorem deleteRole_ok_cases (s : RBACState) (r : Nat) (s1 : RBACState)
    (h : deleteRole s r = .ok s1) :
    s1.modules = s.modules ∧ s1.permissions = s.permissions ∧
    s1.roles = s.roles.filter (fun ro => !(ro.id == r)) ∧
    s1.rolePermissions = s.rolePermissions.filter (fun e => !(e.roleId == r)) ∧
    s1.userRoles = s.userRoles.filter (fun ur => !(ur.roleId == r)) := by
  unfold deleteRole at h
  cases hf : s.roles.find? (fun x => x.id == r) with
  | none => rw [hf] at h; simp at h
  | some ro =>
    rw [hf] at h
    by_cases hs : ro.isSystemRole
    · simp [hs] at h
    · simp only [hs, Bool.false_eq_true, if_false, Except.ok.injEq] at h
      subst h
      exact ⟨rfl, rfl, rfl, rfl, rfl⟩

theorem registerPermission_ok_cases (s : RBACState) (key dn : String) (mid : Nat)
    (pid : Nat) (s1 : RBACState)
    (h : registerPermission s key dn mid = .ok (pid, s1)) :
    s.modules.any (fun m => m.id == mid) = true ∧
    s1.modules = s.modules ∧ s1.roles = s.roles ∧
    s1.rolePermissions = s.rolePermissions ∧ s1.userRoles = s.userRoles ∧
    s1.permissions = s.permissions ++
      [⟨freshPermissionId s, dn, key, mid, true⟩] := by
  unfold registerPermission at h
  by_cases h1 : s.modules.any (fun m => m.id == mid)
  · by_cases h2 : s.permissions.any (fun pm => pm.permissionKey == key)
    · simp [h1, h2] at h
    · simp only [h1, Bool.not_true, Bool.false_eq_true, if_false] at h
      rw [if_neg (by simp [h2]), Except.ok.injEq, Prod.mk.injEq] at h
      obtain ⟨hpid, hs1⟩ := h
      subst hs1
      exact ⟨h1, rfl, rfl, rfl, rfl, rfl⟩
  · simp [h1] at h

theorem registerPermission_unknown_module (s : RBACState) (key dn : String) (mid : Nat)
    (h : s.modules.any (fun m => m.id == mid) = false) :
    registerPermission s key dn mid = .error .UnknownModule := by
  unfold registerPermission
  rw [if_pos (by simp [h])]

theorem not_matching_of_any_false (l : List RoleGrant) (r p : Nat)
    (h : l.any (matchesPair r p) = false) :
    ∀ e ∈ l, ¬(e.roleId = r ∧ e.permissionId = p) := by
  rw [List.any_eq_false] at h
  intro e he hc
  exact absurd ((matchesPair_eq r p e).mpr hc) (by simpa using h e he)

theorem grant_any_matching (s : RBACState) (r p : Nat) (s1 : RBACState)
    (h : grant s r p = .ok s1) :
    s1.rolePermissions.any (matchesPair r p) = true := by
  obtain ⟨-, -, -, -, -, -, hcases⟩ := grant_ok_cases s r p s1 h
  rcases hcases with ⟨hany, heq⟩ | ⟨hany, heq⟩
  · rw [heq, List.any_eq_true]
    rw [List.any_eq_true] at hany
    obtain ⟨e, he, hme⟩ := hany
    exact ⟨setGranted r p true e, List.mem_map_of_mem _ he,
      by rw [matchesPair_setGranted]; exact hme⟩
  · rw [heq, List.any_eq_true]
    exact ⟨⟨r, p, true⟩, by simp, by simp [matchesPair]⟩

theorem grant_matching_true (s : RBACState) (r p : Nat) (s1 : RBACState)
    (h : grant s r p = .ok s1) :
    ∀ e ∈ s1.rolePermissions, e.roleId = r → e.permissionId = p → e.granted = true := by
  obtain ⟨-, -, -, -, -, -, hcases⟩ := grant_ok_cases s r p s1 h
  rcases hcases with ⟨hany, heq⟩ | ⟨hany, heq⟩
  · rw [heq]
    intro e he hr2 hp2
    exact map_setGranted_matching _ r p true e he hr2 hp2
  · rw [heq]
    intro e he hr2 hp2
    rcases List.mem_append.mp he with he1 | he2
    · exact absurd ⟨hr2, hp2⟩ (not_matching_of_any_false _ r p hany e he1)
    · simp only [List.mem_singleton] at he2
      rw [he2]

theorem grant_atMostOne (s : RBACState) (r p : Nat) (s1 : RBACState)
    (hinv : atMostOneEdge s.rolePermissions) (h : grant s r p = .ok s1) :
    atMostOneEdge s1.rolePermissions := by
  obtain ⟨-, -, -, -, -, -, hcases⟩ := grant_ok_cases s r p s1 h
  rcases hcases with ⟨hany, heq⟩ | ⟨hany, heq⟩
  · rw [heq]; exact pairwise_map_setGranted _ r p true hinv
  · rw [heq]
    unfold atMostOneEdge
    rw [List.pairwise_append]
    refine ⟨hinv, by simp, ?_⟩
    intro a ha b hb
    simp only [List.mem_singleton] at hb
    subst hb
    exact not_matching_of_any_false _ r p hany a ha

theorem deny_matching_false (s : RBACState) (r p : Nat) (s1 : RBACState)
    (h : deny s r p = .ok s1) :
    ∀ e ∈ s1.rolePermissions, e.roleId = r → e.permissionId = p → e.granted = false := by
  obtain ⟨-, -, -, -, -, -, hcases⟩ := deny_ok_cases s r p s1 h
  rcases hcases with ⟨hany, heq⟩ | ⟨hany, heq⟩
  · rw [heq]
    intro e he hr2 hp2
    exact map_setGranted_matching _ r p false e he hr2 hp2
  · rw [heq]
    intro e he hr2 hp2
    rcases List.mem_append.mp he with he1 | he2
    · exact absurd ⟨hr2, hp2⟩ (not_matching_of_any_false _ r p hany e he1)
    · simp only [List.mem_singleton] at he2
      rw [he2]

theorem deny_pair_exists (s : RBACState) (r p : Nat) (s1 : RBACState)
    (h : deny s r p = .ok s1) :
    ∃ e ∈ s1.rolePermissions, e.roleId = r ∧ e.permissionId = p ∧ e.granted = false := by
  obtain ⟨-, -, -, -, -, -, hcases⟩ := deny_ok_cases s r p s1 h
  rcases hcases with ⟨hany, heq⟩ | ⟨hany, heq⟩
  · rw [heq]
    rw [List.any_eq_true] at hany
    obtain ⟨e, he, hme⟩ := hany
    obtain ⟨h1, h2⟩ := (matchesPair_eq r p e).mp hme
    exact setGranted_mem_map _ r p false e he h1 h2
  · rw [heq]
    exact ⟨⟨r, p, false⟩, by simp, rfl, rfl, rfl⟩

theorem deny_atMostOne (s : RBACState) (r p : Nat) (s1 : RBACState)
    (hinv : atMostOneEdge s.rolePermissions) (h : deny s r p = .ok s1) :
    atMostOneEdge s1.rolePermissions := by
  obtain ⟨-, -, -, -, -, -, hcases⟩ := deny_ok_cases s r p s1 h
  rcases hcases with ⟨hany, heq⟩ | ⟨hany, heq⟩
  · rw [heq]; exact pairwise_map_setGranted _ r p false hinv
  · rw [heq]
    unfold atMostOneEdge
    rw [List.pairwise_append]
    refine ⟨hinv, by simp, ?_⟩
    intro a ha b hb
    simp only [List.mem_singleton] at hb
    subst hb
    exact not_matching_of_any_false _ r p hany a ha

theorem revoke_no_pair (s : RBACState) (r p : Nat) (s1 : RBACState)
    (h : revoke s r p = .ok s1) :
    ∀ e ∈ s1.rolePermissions, ¬(e.roleId = r ∧ e.permissionId = p) := by
  obtain ⟨-, -, -, -, -, -, heq⟩ := revoke_ok_cases s r p s1 h
  rw [heq]
  intro e he hc
  have := (List.mem_filter.mp he).2
  rw [Bool.not_eq_true'] at this
  exact absurd ((matchesPair_eq r p e).mpr hc) (by simp [this])

theorem revoke_atMostOne (s : RBACState) (r p : Nat) (s1 : RBACState)
    (hinv : atMostOneEdge s.rolePermissions) (h : revoke s r p = .ok s1) :
    atMostOneEdge s1.rolePermissions := by
  obtain ⟨-, -, -, -, -, -, heq⟩ := revoke_ok_cases s r p s1 h
  rw [heq]
  exact List.Pairwise.sublist (List.filter_sublist _) hinv

/-- C1: an explicit deny from any held role overrides a grant from another
held role: if the requested key resolves to permission pm, principal p
holds roles A and B, some role_permissions edge from A grants pm and some
edge from B denies pm, then isPermitted answers false. -/
theorem deny_overrides_grant_across_roles (s : RBACState) (p : Nat) (k : String)
    (pm : Permission)
    (hfind : s.permissions.find? (fun q => q.permissionKey == k) = some pm)
    (A B : Nat) (hA : A ∈ listRoles s p) (hB : B ∈ listRoles s p)
    (g d : RoleGrant) (hg : g ∈ s.rolePermissions) (hgr : g.roleId = A)
    (hgp : g.permissionId = pm.id) (hgt : g.granted = true)
    (hd : d ∈ s.rolePermissions) (hdr : d.roleId = B)
    (hdp : d.permissionId = pm.id) (hdt : d.granted = false) :
    isPermitted s p k = false := by
  unfold isPermitted
  rw [hfind]
  have hden : deniedBy s (listRoles s p) pm.id = true := by
    unfold deniedBy
    rw [List.any_eq_true]
    refine ⟨d, hd, ?_⟩
    have hc : (listRoles s p).contains d.roleId = true := by
      rw [hdr]; exact List.elem_eq_true_of_mem hB
    rw [hc, hdp, hdt]
    simp
  simp [effectivePermitted, hden]

/-- Witness for C1 on the sample state: principal 100 holds roles 20 and
21, role 20 grants permission 10 and role 21 denies it, so the request is
refused. -/
theorem deny_overrides_grant_across_roles_witness :
    isPermitted demoState 100 "quality.test.create" = false :=
  deny_overrides_grant_across_roles demoState 100 "quality.test.create"
    ⟨10, "Create test", "quality.test.create", 1, true⟩ (by rfl)
    20 21 (by decide) (by decide)
    ⟨20, 10, true⟩ ⟨21, 10, false⟩ (by decide) rfl rfl rfl (by decide) rfl rfl rfl

/-- C2: a principal with no assigned roles is denied every permission key:
when listRoles yields the empty set, isPermitted answers false for every
key (fail-closed default). -/
theorem no_roles_every_request_denied (s : RBACState) (p : Nat)
    (h : listRoles s p = []) : ∀ k : String, isPermitted s p k = false :=
  fun k => isPermitted_of_no_roles s p k h

/-- Witness for C2 on the sample state: principal 999 has no assignment
edge, so a request for a stored key is refused. -/
theorem no_roles_every_request_denied_witness :
    listRoles demoState 999 = [] ∧ isPermitted demoState 999 "quality.test.create" = false :=
  ⟨by decide, no_roles_every_request_denied demoState 999 (by decide) "quality.test.create"⟩

/-- C3: isPermitted is a total boolean function with fail-closed defaults:
an unresolvable permission key answers false, a role-less principal
answers false, and (for a state whose permission keys are distinct, as the
schema's unique constraint on permission_key requires) the answer is true
exactly when some stored permission carries the key and is effectively
permitted over the principal's role set. -/
theorem isPermitted_total_fail_closed (s : RBACState) (p : Nat) (k : String)
    (hkeys : (s.permissions.map Permission.permissionKey).Nodup) :
    (s.permissions.find? (fun q => q.permissionKey == k) = none →
      isPermitted s p k = false)
    ∧ (listRoles s p = [] → isPermitted s p k = false)
    ∧ (isPermitted s p k = true ↔ ∃ pm, pm ∈ s.permissions ∧ pm.permissionKey = k ∧
        effectivePermitted s (listRoles s p) pm.id = true) := by
  refine ⟨?_, fun h => isPermitted_of_no_roles s p k h, ?_⟩
  · intro h; unfold isPermitted; rw [h]
  · constructor
    · intro h
      unfold isPermitted at h
      cases hf : s.permissions.find? (fun q => q.permissionKey == k) with
      | none => rw [hf] at h; exact absurd h (by simp)
      | some pm =>
        rw [hf] at h
        refine ⟨pm, List.mem_of_find?_eq_some hf, ?_, h⟩
        simpa using List.find?_some hf
    · rintro ⟨pm, hmem, hkey, heff⟩
      unfold isPermitted
      cases hf : s.permissions.find? (fun q => q.permissionKey == k) with
      | none =>
        exfalso
        rw [List.find?_eq_none] at hf
        exact absurd (by simpa using hkey) (by simpa using hf pm hmem)
      | some pm2 =>
        have hmem2 := List.mem_of_find?_eq_some hf
        have hkey2 : pm2.permissionKey = k := by simpa using List.find?_some hf
        have hpe : pm2 = pm :=
          List.inj_on_of_nodup_map hkeys hmem2 hmem (hkey2.trans hkey.symm)
        rw [hpe]; exact heff

/-- Witness for C3 on the sample state: its permission keys are distinct,
and the unknown key "nope" is refused with the ordinary boolean false. -/
theorem isPermitted_total_fail_closed_witness :
    isPermitted demoState 999 "nope" = false :=
  (isPermitted_total_fail_closed demoState 999 "nope" (by decide)).1 (by rfl)

/-- C8: deleting a role whose isSystemRole flag is set fails with the
ProtectedRole error; deleteRole is a pure function on the state, so the
error outcome produces no successor state and every stored row of the
pre-state is untouched. -/
theorem deleteRole_system_protected (s : RBACState) (rid : Nat) (ro : Role)
    (hfind : s.roles.find? (fun x => x.id == rid) = some ro)
    (hsys : ro.isSystemRole = true) :
    deleteRole s rid = .error .ProtectedRole := by
  unfold deleteRole
  rw [hfind]
  simp [hsys]

/-- Witness for C8 on the sample state: role 22 is the system role and its
deletion is refused with ProtectedRole. -/
theorem deleteRole_system_protected_witness :
    deleteRole demoState 22 = .error .ProtectedRole :=
  deleteRole_system_protected demoState 22
    ⟨22, "Admin", "admin", true, true⟩ (by rfl) rfl

/-- C10: a role_permissions insert whose payload omits the granted field
stores an edge with granted = true — the schema default of line 141 —
so an edge created with the flag omitted is a grant, never an explicit
deny. -/
theorem granted_omitted_defaults_true (s : RBACState) (r p : Nat) :
    (insertRolePermission s r p none).rolePermissions
      = s.rolePermissions ++ [⟨r, p, true⟩] := rfl


/-- The successor state of granting the pair (20, 10) on the sample
state. -/
def demoGrantResult : RBACState :=
  { demoState with rolePermissions := [⟨20, 10, true⟩, ⟨21, 10, false⟩] }

/-- The successor state of denying the pair (20, 10) on the sample state
(or on demoGrantResult, which holds the same edges up to the pair's
flag). -/
def demoDenyResult : RBACState :=
  { demoState with rolePermissions := [⟨20, 10, false⟩, ⟨21, 10, false⟩] }

/-- The successor state of deleting role 21 on the sample state. -/
def demoDeleteResult : RBACState :=
  { modules := demoState.modules
  , permissions := demoState.permissions
  , roles := [⟨20, "Quality technician", "quality_technician", false, true⟩,
              ⟨22, "Admin", "admin", true, true⟩]
  , rolePermissions := [⟨20, 10, true⟩]
  , userRoles := [⟨100, 20, none⟩] }

/-- C4: the at-most-one-edge invariant of the role-permission graph is
preserved by grant, deny and revoke; after a deny the pair still has a
stored edge, now with granted = false (an explicit deny is a structural
entry), while after a revoke the pair has no edge at all (no opinion). -/
theorem at_most_one_edge_invariant (s : RBACState) (r p : Nat)
    (hinv : atMostOneEdge s.rolePermissions) :
    (∀ s1, grant s r p = .ok s1 → atMostOneEdge s1.rolePermissions)
    ∧ (∀ s1, deny s r p = .ok s1 → atMostOneEdge s1.rolePermissions
        ∧ ∃ e ∈ s1.rolePermissions, e.roleId = r ∧ e.permissionId = p ∧ e.granted = false)
    ∧ (∀ s1, revoke s r p = .ok s1 → atMostOneEdge s1.rolePermissions
        ∧ ∀ e ∈ s1.rolePermissions, ¬(e.roleId = r ∧ e.permissionId = p)) :=
  ⟨fun s1 h => grant_atMostOne s r p s1 hinv h,
   fun s1 h => ⟨deny_atMostOne s r p s1 hinv h, deny_pair_exists s r p s1 h⟩,
   fun s1 h => ⟨revoke_atMostOne s r p s1 hinv h, revoke_no_pair s r p s1 h⟩⟩

/-- Witness for C4 on the sample state: its edge list satisfies the
invariant, and denying the pair (20, 10) preserves it while leaving an
explicit deny edge for the pair. -/
theorem at_most_one_edge_invariant_witness :
    atMostOneEdge demoDenyResult.rolePermissions
    ∧ ∃ e ∈ demoDenyResult.rolePermissions,
        e.roleId = 20 ∧ e.permissionId = 10 ∧ e.granted = false :=
  (at_most_one_edge_invariant demoState 20 10
    (by unfold atMostOneEdge demoState; simp)).2.1 demoDenyResult (by rfl)

/-- C5: grant and assignRole are idempotent: a second identical grant call
returns exactly the state the first produced, and a second identical
assignRole call returns exactly the state the first produced; moreover a
(principal, role) pair stored at most once before an assignRole is stored
at most once afterwards, so the duplicate call never stores the edge
twice and listRoles is unchanged by it. -/
theorem grant_and_assignRole_idempotent (s : RBACState) (r p u : Nat) (b : Option Nat) :
    (∀ s1, grant s r p = .ok s1 → grant s1 r p = .ok s1)
    ∧ (∀ s2, assignRole s u r b = .ok s2 → assignRole s2 u r b = .ok s2
        ∧ (s.userRoles.countP (fun ur => ur.userId == u && ur.roleId == r) ≤ 1 →
           s2.userRoles.countP (fun ur => ur.userId == u && ur.roleId == r) ≤ 1)) := by
  constructor
  · intro s1 h1
    obtain ⟨hre, hpe, hm, hp, hro, hu, -⟩ := grant_ok_cases s r p s1 h1
    have hre1 : roleExists s1 r = true := by
      unfold roleExists at *; rw [hro]; exact hre
    have hpe1 : permissionExists s1 p = true := by
      unfold permissionExists at *; rw [hp]; exact hpe
    have hexists := grant_any_matching s r p s1 h1
    have hall := grant_matching_true s r p s1 h1
    unfold grant
    rw [if_neg (by simp [hre1]), if_neg (by simp [hpe1]), if_pos hexists]
    have hmap : s1.rolePermissions.map (setGranted r p true) = s1.rolePermissions :=
      map_setGranted_id _ r p true hall
    rw [hmap]
  · intro s2 h2
    obtain ⟨hre, hm, hp, hro, hrp, hcases⟩ := assignRole_ok_cases s u r b s2 h2
    have hre2 : roleExists s2 r = true := by
      unfold roleExists at *; rw [hro]; exact hre
    have hexists : s2.userRoles.any (fun ur => ur.userId == u && ur.roleId == r) = true := by
      rcases hcases with ⟨hany, heq⟩ | ⟨hany, heq⟩
      · rw [heq]; exact hany
      · rw [heq, List.any_eq_true]
        exact ⟨⟨u, r, b⟩, by simp, by simp⟩
    constructor
    · unfold assignRole
      rw [if_neg (by simp [hre2]), if_pos hexists]
    · intro hle
      rcases hcases with ⟨hany, heq⟩ | ⟨hany, heq⟩
      · rw [heq]; exact hle
      · rw [heq, List.countP_append]
        have hz : s.userRoles.countP (fun ur => ur.userId == u && ur.roleId == r) = 0 := by
          rw [List.countP_eq_zero]
          rw [List.any_eq_false] at hany
          intro a ha
          simpa using hany a ha
        rw [hz]
        simp [List.countP_cons]

/-- Witness for C5 on the sample state: regranting (20, 10) to the state a
first grant produced returns that state unchanged, and the already
assigned (principal 100, role 20) pair makes a repeated assignRole a no-op
that keeps the pair stored once. -/
theorem grant_and_assignRole_idempotent_witness :
    grant demoGrantResult 20 10 = .ok demoGrantResult
    ∧ (assignRole demoState 100 20 (some 100) = .ok demoState
       ∧ demoState.userRoles.countP (fun ur => ur.userId == 100 && ur.roleId == 20) ≤ 1) := by
  constructor
  · exact (grant_and_assignRole_idempotent demoState 20 10 100 (some 100)).1
      demoGrantResult (by rfl)
  · have h := (grant_and_assignRole_idempotent demoState 20 10 100 (some 100)).2
      demoState (by rfl)
    exact ⟨h.1, h.2 (by decide)⟩

/-- C6: on a single pair, grant followed by deny leaves exactly one edge
for the pair and it carries granted = false; the intermediate grant stored
an edge with granted = true for the pair, and a subsequent revoke removes
the pair's edge entirely, reverting it to no-opinion. -/
theorem grant_then_deny_explicit_deny (s : RBACState) (r p : Nat)
    (hinv : atMostOneEdge s.rolePermissions) (s1 s2 : RBACState)
    (h1 : grant s r p = .ok s1) (h2 : deny s1 r p = .ok s2) :
    (∃ e ∈ s1.rolePermissions, e.roleId = r ∧ e.permissionId = p ∧ e.granted = true)
    ∧ s2.rolePermissions.countP (matchesPair r p) = 1
    ∧ (∀ e ∈ s2.rolePermissions, e.roleId = r → e.permissionId = p → e.granted = false)
    ∧ (∀ s3, revoke s2 r p = .ok s3 →
        ∀ e ∈ s3.rolePermissions, ¬(e.roleId = r ∧ e.permissionId = p)) := by
  have hany1 := grant_any_matching s r p s1 h1
  have hinv1 := grant_atMostOne s r p s1 hinv h1
  refine ⟨?_, ?_, deny_matching_false s1 r p s2 h2, fun s3 h3 => revoke_no_pair s2 r p s3 h3⟩
  · rw [List.any_eq_true] at hany1
    obtain ⟨e, he, hme⟩ := hany1
    obtain ⟨her, hep⟩ := (matchesPair_eq r p e).mp hme
    exact ⟨e, he, her, hep, grant_matching_true s r p s1 h1 e he her hep⟩
  · obtain ⟨-, -, -, -, -, -, hcases⟩ := deny_ok_cases s1 r p s2 h2
    rcases hcases with ⟨hany, heq⟩ | ⟨hany, heq⟩
    · rw [heq, countP_map_setGranted]
      have hle := countP_le_one_of_pairwise s1.rolePermissions r p hinv1
      have hpos : 0 < s1.rolePermissions.countP (matchesPair r p) := by
        rw [List.countP_pos_iff]
        rw [List.any_eq_true] at hany
        exact hany
      omega
    · rw [hany1] at hany
      cases hany

/-- Witness for C6 on the sample state: granting then denying the pair
(20, 10) leaves exactly one edge for the pair. -/
theorem grant_then_deny_explicit_deny_witness :
    demoDenyResult.rolePermissions.countP (matchesPair 20 10) = 1 :=
  (grant_then_deny_explicit_deny demoState 20 10
    (by unfold atMostOneEdge demoState; simp)
    demoGrantResult demoDenyResult (by rfl) (by rfl)).2.1

/-- C7: deleting a non-system role cascades: the successor state keeps no
role_permissions edge and no user_roles edge referencing the deleted role,
and a principal all of whose assignment edges pointed at that role is left
role-less, so isPermitted refuses it every permission key afterwards. -/
theorem deleteRole_cascades_edges (s : RBACState) (rid : Nat) (s1 : RBACState)
    (h : deleteRole s rid = .ok s1) :
    (∀ e ∈ s1.rolePermissions, e.roleId ≠ rid)
    ∧ (∀ ur ∈ s1.userRoles, ur.roleId ≠ rid)
    ∧ (∀ p : Nat, (∀ x ∈ listRoles s p, x = rid) →
        ∀ k : String, isPermitted s1 p k = false) := by
  obtain ⟨hm, hp, hr, hrp, hur⟩ := deleteRole_ok_cases s rid s1 h
  refine ⟨?_, ?_, ?_⟩
  · intro e he
    rw [hrp] at he
    have := (List.mem_filter.mp he).2
    simpa using this
  · intro ur hin
    rw [hur] at hin
    have := (List.mem_filter.mp hin).2
    simpa using this
  · intro p hall k
    apply isPermitted_of_no_roles
    unfold listRoles
    rw [List.map_eq_nil_iff, List.filter_eq_nil_iff]
    intro ur hin hEq
    rw [hur] at hin
    obtain ⟨hin0, hne⟩ := List.mem_filter.mp hin
    have hmem : ur.roleId ∈ listRoles s p := by
      unfold listRoles
      exact List.mem_map_of_mem _ (List.mem_filter.mpr ⟨hin0, hEq⟩)
    have := hall _ hmem
    simp [this] at hne

/-- Witness for C7 on the sample state: deleting the non-system role 21
produces a concrete state, and principal 50 (all of whose assignment edges
pointed at role 21, there being none) is then refused a stored key. -/
theorem deleteRole_cascades_edges_witness :
    deleteRole demoState 21 = .ok demoDeleteResult
    ∧ isPermitted demoDeleteResult 50 "quality.test.create" = false := by
  have h : deleteRole demoState 21 = .ok demoDeleteResult := by rfl
  exact ⟨h, (deleteRole_cascades_edges demoState 21 demoDeleteResult h).2.2 50
    (by decide) "quality.test.create"⟩

/-- Auxiliary: the module-reference invariant transfers along equal module
and permission tables. -/
theorem permissionModulesValid_of_eq (s s1 : RBACState)
    (hm : s1.modules = s.modules) (hp : s1.permissions = s.permissions)
    (hv : permissionModulesValid s) : permissionModulesValid s1 := by
  unfold permissionModulesValid at *
  rw [hm, hp]; exact hv

/-- C9: every permissions row references an existing module:
registerPermission rejects an unknown module id with UnknownModule, and
registerPermission, grant, deny, revoke, assignRole, unassignRole and
deleteRole all preserve the invariant that every stored permission's
moduleId is the id of a stored module. -/
theorem permission_references_existing_module (s : RBACState)
    (hv : permissionModulesValid s) :
    (∀ (key dn : String) (mid : Nat), s.modules.any (fun m => m.id == mid) = false →
      registerPermission s key dn mid = .error .UnknownModule)
    ∧ (∀ key dn mid pid s1, registerPermission s key dn mid = .ok (pid, s1) →
        permissionModulesValid s1)
    ∧ (∀ r p s1, grant s r p = .ok s1 → permissionModulesValid s1)
    ∧ (∀ r p s1, deny s r p = .ok s1 → permissionModulesValid s1)
    ∧ (∀ r p s1, revoke s r p = .ok s1 → permissionModulesValid s1)
    ∧ (∀ u r b s1, assignRole s u r b = .ok s1 → permissionModulesValid s1)
    ∧ (∀ u r, permissionModulesValid (unassignRole s u r))
    ∧ (∀ r s1, deleteRole s r = .ok s1 → permissionModulesValid s1) := by
  refine ⟨?_, ?_, ?_, ?_, ?_, ?_, ?_, ?_⟩
  · intro key dn mid hnone
    exact registerPermission_unknown_module s key dn mid hnone
  · intro key dn mid pid s1 h
    obtain ⟨hany, hm, -, -, -, hp⟩ := registerPermission_ok_cases s key dn mid pid s1 h
    intro pm hpm
    rw [hp] at hpm
    rw [hm]
    rcases List.mem_append.mp hpm with h1 | h2
    · exact hv pm h1
    · simp only [List.mem_singleton] at h2
      subst h2
      rw [List.any_eq_true] at hany
      obtain ⟨m, hmem, hid⟩ := hany
      exact ⟨m, hmem, by simpa using hid⟩
  · intro r p s1 h
    obtain ⟨-, -, hm, hp, -, -, -⟩ := grant_ok_cases s r p s1 h
    exact permissionModulesValid_of_eq s s1 hm hp hv
  · intro r p s1 h
    obtain ⟨-, -, hm, hp, -, -, -⟩ := deny_ok_cases s r p s1 h
    exact permissionModulesValid_of_eq s s1 hm hp hv
  · intro r p s1 h
    obtain ⟨-, -, hm, hp, -, -, -⟩ := revoke_ok_cases s r p s1 h
    exact permissionModulesValid_of_eq s s1 hm hp hv
  · intro u r b s1 h
    obtain ⟨-, hm, hp, -, -, -⟩ := assignRole_ok_cases s u r b s1 h
    exact permissionModulesValid_of_eq s s1 hm hp hv
  · intro u r
    exact permissionModulesValid_of_eq s (unassignRole s u r) rfl rfl hv
  · intro r s1 h
    obtain ⟨hm, hp, -, -, -⟩ := deleteRole_ok_cases s r s1 h
    exact permissionModulesValid_of_eq s s1 hm hp hv

/-- Witness for C9 on the sample state: the invariant holds there, and
registering a permission against the absent module 77 is refused with
UnknownModule. -/
theorem permission_references_existing_module_witness :
    registerPermission demoState "energy.read" "Read energy" 77
      = .error .UnknownModule := by
  have hv : permissionModulesValid demoState := by
    intro pm hpm
    simp only [demoState, List.mem_singleton] at hpm
    subst hpm
    exact ⟨⟨1, "Quality", "quality", true⟩, by simp [demoState], rfl⟩
  exact (permission_references_existing_module demoState hv).1
    "energy.read" "Read energy" 77 (by decide)


end RBAC
